import Mathlib

/-!
Shallow embedding of the orchestration core of `src/main.py` (an interactive
CLI agent): the planner (`AgentBrain.create_plan`), the intent classifier
(`AgentBrain.deep_router` / `detect_intent`), the per-model statistics store
(`PersistenceLayer.update_model_stat`), the single-backend retry loop
(`BaseAIEngine.generate_content`), the multi-backend dispatcher
(`MultiAIEngine.generate_content`), the workspace writer
(`WorkspaceManager.write_file`), the plan executor
(`TerminalApp.run_agent_workflow` / `execute_plan_with_progress` /
`_handle_file_action`) and the self-healing command runner
(`TerminalApp.run_command_with_ai_install`).

External collaborators (the AI backends, the OS, the user's keyboard) are
modelled as explicit oracle parameters; Python exceptions raised across a
modelled boundary are modelled with `Except String`.
-/

namespace Xeda

/-!
Python string primitives, implemented over `List Char` (Python's string
operations are character based). Lean's own `String.trim`, `toUpper`,
`replace`, `splitOn` are compiled from well-founded recursions over byte
positions and do not reduce inside the kernel, so the embeddings below are
written as structural recursions that a witness can evaluate with `decide`
or `rfl`. `Char.toUpper`/`Char.toLower` only map ASCII letters; the tokens
the claims are about are ASCII.
-/

/-- Python `s.strip()`. -/
def pyStrip (s : String) : String :=
  (((s.toList.dropWhile Char.isWhitespace).reverse.dropWhile
      Char.isWhitespace).reverse).asString

/-- Python `s.upper()`. -/
def pyUpper (s : String) : String :=
  (s.toList.map Char.toUpper).asString

/-- Python `s.lower()`. -/
def pyLower (s : String) : String :=
  (s.toList.map Char.toLower).asString

/-- Python `len(s)`. -/
def pyLen (s : String) : Nat :=
  s.toList.length

/-- Substring occurrence on character lists (`needle in hay`). -/
def listContainsSub : List Char → List Char → Bool
  | _, [] => true
  | [], _ :: _ => false
  | h :: t, n :: ns => (n :: ns).isPrefixOf (h :: t) || listContainsSub t (n :: ns)

/-- Python substring test `needle in hay`. -/
def containsSubstr (hay needle : String) : Bool :=
  listContainsSub hay.toList needle.toList

/-- Python string slice `s[:n]`. -/
def pyTake (s : String) (n : Nat) : String :=
  (s.toList.take n).asString

/-- One left-to-right, non-overlapping replacement pass of Python
`s.replace(old, new)` on character lists, with `fuel` bounding the walk
(called with the input length, which always suffices). -/
def listReplace (old neu : List Char) : Nat → List Char → List Char
  | _, [] => []
  | 0, s => s
  | fuel + 1, c :: rest =>
    if old ≠ [] ∧ old.isPrefixOf (c :: rest) then
      neu ++ listReplace old neu fuel (List.drop old.length (c :: rest))
    else c :: listReplace old neu fuel rest

/-- Python `s.replace(old, new)` (for non-empty `old`, as used in the
source). -/
def pyReplace (s old neu : String) : String :=
  (listReplace old.toList neu.toList s.toList.length s.toList).asString

/-- Skip one Python line (boundaries `\r\n`, `\r`, `\n`), for `splitlines`. -/
def dropLine : List Char → List Char
  | [] => []
  | c :: rest =>
    if c = '\r' then
      match rest with
      | '\n' :: rest2 => rest2
      | _ => rest
    else if c = '\n' then rest
    else dropLine rest

/-- `len(s.splitlines())`: the number of Python lines (a trailing newline
does not open a new line; the empty string has none). `fuel` bounds the
walk and is called with the input length. -/
def splitlinesLenAux : Nat → List Char → Nat
  | _, [] => 0
  | 0, _ => 1
  | fuel + 1, cs => 1 + splitlinesLenAux fuel (dropLine cs)

/-- Python `len(s.splitlines())`. -/
def pySplitlinesLen (s : String) : Nat :=
  splitlinesLenAux s.toList.length s.toList

/-- Python `s.split()[0]`: the first whitespace-delimited word, raising an
`IndexError` on an empty or all-whitespace string. -/
def firstWord (s : String) : Except String String :=
  match s.toList.dropWhile Char.isWhitespace with
  | [] => .error "IndexError: list index out of range"
  | c :: rest => .ok ((c :: rest).takeWhile (fun ch => !ch.isWhitespace)).asString

/-- A parsed JSON value, the result of `json.loads`. -/
inductive JsonVal where
  | str (s : String)
  | num (n : Int)
  | bool (b : Bool)
  | null
  | arr (elems : List JsonVal)
  | obj (fields : List (String × JsonVal))

/-- Whether a JSON value is the string `s` (used for Python `in` on lists). -/
def jsonIsStr (v : JsonVal) (s : String) : Bool :=
  match v with
  | .str t => t == s
  | _ => false

/-- Python `key in v` on a parsed JSON value: key membership for a dict,
element membership for a list, substring test for a string, and a raised
`TypeError` for the remaining (non-iterable) values. -/
def pyContains (v : JsonVal) (key : String) : Except String Bool :=
  match v with
  | .obj fields => .ok (fields.any (fun kv => kv.1 == key))
  | .arr elems => .ok (elems.any (fun e => jsonIsStr e key))
  | .str s => .ok (containsSubstr s key)
  | _ => .error "TypeError: argument is not iterable"

/-- Dict lookup on the field list of a JSON object. -/
def jsonGet (fields : List (String × JsonVal)) (key : String) : Option JsonVal :=
  (fields.find? (fun kv => kv.1 == key)).map (fun kv => kv.2)

/-- Python `if key not in plan_data: plan_data[key] = dflt` on a parsed JSON
value: the membership test follows `pyContains`; the item assignment succeeds
only on a dict (appending the new key, as dict insertion order does) and
raises a `TypeError` on any other value. -/
def setDefaultJson (v : JsonVal) (key : String) (dflt : JsonVal) : Except String JsonVal :=
  match pyContains v key with
  | .error e => .error e
  | .ok true => .ok v
  | .ok false =>
    match v with
    | .obj fields => .ok (.obj (fields ++ [(key, dflt)]))
    | _ => .error "TypeError: object does not support item assignment"

/-- `response.replace('```json', '').replace('```', '').strip()` from
`AgentBrain.create_plan`. -/
def stripFences (response : String) : String :=
  pyStrip (pyReplace (pyReplace response "```json" "") "```" "")

/-- The four `setdefault`-style fills of `AgentBrain.create_plan`, in source
order: `analysis`, `dependencies`, `confidence_reason`, `risk_reason`. -/
def fillDefaults (v : JsonVal) : Except String JsonVal := do
  let v1 ← setDefaultJson v "analysis" (.str "No detailed analysis provided.")
  let v2 ← setDefaultJson v1 "dependencies" (.arr [])
  let v3 ← setDefaultJson v2 "confidence_reason"
      (.str "Based on AI analysis of task complexity and project context.")
  setDefaultJson v3 "risk_reason"
      (.str "Standard risk assessment based on file modification scope.")

/-- `AgentBrain.create_plan`, from the backend response onward. `parse`
models `json.loads`: `none` is a `json.JSONDecodeError` (the only exception
the source catches); `response = none` is a falsy backend response. The
result is `.ok none` when the source returns `None`, `.ok (some v)` when it
returns plan data `v`, and `.error e` when an uncaught exception `e`
propagates to the caller. -/
def create_plan (parse : String → Option JsonVal) (response : Option String) :
    Except String (Option JsonVal) :=
  match response with
  | none => .ok none
  | some r =>
    let clean_json := stripFences r
    match parse clean_json with
    | none => .ok none
    | some plan_data =>
      match pyContains plan_data "steps" with
      | .error e => .error e
      | .ok false => .ok none
      | .ok true =>
        match fillDefaults plan_data with
        | .error e => .error e
        | .ok v => .ok (some v)

/-! ### Per-model statistics (`PersistenceLayer.update_model_stat`) -/

/-- One value of `config["model_stats"]`. -/
structure ModelStats where
  requests : Nat
  successes : Nat
  failures : Nat
  tokens_used : Nat
  last_used : String
deriving Repr, DecidableEq

/-- Association-list lookup, the read side of a Python dict. -/
def alist_get {α : Type} : List (String × α) → String → Option α
  | [], _ => none
  | kv :: t, k => if kv.1 == k then some kv.2 else alist_get t k

/-- Association-list store, the write side of a Python dict: updates the
existing key in place, otherwise appends (dict insertion order). -/
def alist_set {α : Type} : List (String × α) → String → α → List (String × α)
  | [], k, v => [(k, v)]
  | kv :: t, k, v => if kv.1 == k then (k, v) :: t else kv :: alist_set t k v

/-- The mutation applied to one stats record by `update_model_stat`:
`requests += 1`, `tokens_used += tokens`, `last_used = now`, then
`successes += 1` or `failures += 1` according to `success`. -/
def bumpStats (s : ModelStats) (success : Bool) (tokens : Nat) (now : String) : ModelStats :=
  let s1 : ModelStats :=
    { s with requests := s.requests + 1, tokens_used := s.tokens_used + tokens, last_used := now }
  if success then { s1 with successes := s1.successes + 1 }
  else { s1 with failures := s1.failures + 1 }

/-- `PersistenceLayer.update_model_stat` on `config["model_stats"]`. The
source first inserts a zeroed record when the key is absent and then mutates
the record in place; here the two steps are combined into a read with a
zeroed default followed by an insert-or-update, which produces the same dict.
`now` models `datetime.now().isoformat()`. -/
def update_model_stat (cfg : List (String × ModelStats)) (model_name : String)
    (success : Bool) (tokens_used : Nat) (now : String) : List (String × ModelStats) :=
  let current := (alist_get cfg model_name).getD ⟨0, 0, 0, 0, now⟩
  alist_set cfg model_name (bumpStats current success tokens_used now)

/-- The BackendStats invariant of the design: `successes + failures == requests`. -/
def statInv (s : ModelStats) : Prop :=
  s.successes + s.failures = s.requests

/-! ### Single-backend retry loop (`BaseAIEngine.generate_content`) -/

/-- Outcome of one `_unsafe_generate` attempt: a truthy result, a falsy
result returned without raising, or a raised exception. -/
inductive GenOutcome where
  | ok (text : String)
  | empty
  | exn (msg : String)

/-- What one call of `BaseAIEngine.generate_content` did: its returned value,
the `update_model_stat` calls it performed in order (`true` = success flag),
and how many times `_unsafe_generate` ran. -/
structure BaseGenResult where
  result : Option String
  statUpdates : List Bool
  attemptsMade : Nat
deriving Repr, DecidableEq

/-- The `for attempt in range(retries)` loop of `BaseAIEngine.generate_content`,
with `behavior n` the outcome of `_unsafe_generate` on attempt `n`. A truthy
result records one success update and returns; a falsy result returns with no
update at all; an exception is logged and the loop moves on; when the loop
ends, one failure update is recorded and `None` returned. -/
def baseGenLoop (behavior : Nat → GenOutcome) : Nat → Nat → BaseGenResult
  | _, 0 => ⟨none, [false], 0⟩
  | attempt, remaining + 1 =>
    match behavior attempt with
    | .ok t => ⟨some t, [true], 1⟩
    | .empty => ⟨none, [], 1⟩
    | .exn _ =>
      let r := baseGenLoop behavior (attempt + 1) remaining
      ⟨r.result, r.statUpdates, r.attemptsMade + 1⟩

/-- `BaseAIEngine.generate_content(prompt, retries)`. -/
def base_generate_content (behavior : Nat → GenOutcome) (retries : Nat) : BaseGenResult :=
  baseGenLoop behavior 0 retries

/-- Folding the recorded stat updates of a call into the stats store, each
through `update_model_stat` (tokens/timestamps abstracted to fixed values as
they do not affect the counters). -/
def applyUpdates (cfg : List (String × ModelStats)) (model_name : String) :
    List Bool → List (String × ModelStats)
  | [] => cfg
  | u :: us => applyUpdates (update_model_stat cfg model_name u 0 "now") model_name us

/-! ### Intent classifier (`AgentBrain.deep_router`, `detect_intent`) -/

/-- `AgentBrain.deep_router`, with `ai_result` the text returned by
`MultiAIEngine.generate_content` (`none` for a falsy result): inputs whose
stripped form is shorter than 3 characters are `CHAT` without a backend
call; otherwise the backend response is returned as
`result.strip().upper()` when truthy and defaults to `CHAT` when falsy. -/
def deep_router (ai_result : Option String) (prompt : String) : String :=
  if pyLen (pyStrip prompt) < 3 then "CHAT"
  else
    match ai_result with
    | some r => if r ≠ "" then pyUpper (pyStrip r) else "CHAT"
    | none => "CHAT"

/-- The closed IntentCategory enumeration of the design. -/
def valid_intents : List String :=
  ["CHAT", "QUESTION", "MODIFY_PROJECT", "CREATE_PROJECT", "DEBUG", "RUN_ONLY"]

/-- `AgentBrain.detect_intent`: maps the four agent-triggering categories to
`AGENT` and everything else to `CHAT`. -/
def detect_intent (ai_result : Option String) (prompt : String) : String :=
  let intent := deep_router ai_result prompt
  if intent ∈ ["MODIFY_PROJECT", "CREATE_PROJECT", "DEBUG", "RUN_ONLY"] then "AGENT"
  else "CHAT"

/-! ### Workspace writer (`WorkspaceManager.write_file`) -/

/-- The value `WorkspaceManager.write_file` hands back to its caller:
`True` on success, `str(e)` on failure. -/
inductive WriteRes where
  | ok
  | err (msg : String)
deriving Repr, DecidableEq

/-- A tiny filesystem: the set of directories and the path → content map. -/
structure FS where
  dirs : List String
  files : List (String × String)
deriving Repr, DecidableEq

/-- `WorkspaceManager.write_file(path, content)`. `parent` is the
environment-computed `os.path.dirname(os.path.abspath(path))`; `mkdirFault`
and `writeFault` are the exceptions (if any) raised by `os.makedirs` and by
`open`/`write`. The whole body sits in a `try`, so the function is total:
it returns `True` exactly when both OS calls succeed and otherwise returns
the exception text, never propagating it. `os.makedirs(..., exist_ok=True)`
runs before the write, so the parent directory exists by the time the file
is written. -/
def write_file (fs : FS) (parent path content : String)
    (mkdirFault writeFault : Option String) : WriteRes × FS :=
  match mkdirFault with
  | some e => (.err e, fs)
  | none =>
    let fs1 : FS :=
      { fs with dirs := if parent ∈ fs.dirs then fs.dirs else parent :: fs.dirs }
    match writeFault with
    | some e => (.err e, fs1)
    | none => (.ok, { fs1 with files := alist_set fs1.files path content })

/-! ### Plan executor (`TerminalApp`) -/

/-- The three process-wide mode flags read by the executor. The source
defaults are `silent_errors = true`, `ghost_mode = false`,
`auto_mode = false`. -/
structure Mode where
  silent_errors : Bool
  ghost_mode : Bool
  auto_mode : Bool
deriving Repr, DecidableEq

/-- One plan step as the executor reads it (each field via `.get` with a
default of the empty string). -/
structure PStep where
  action : String
  path : String
  command : String
  description : String
deriving Repr, DecidableEq

/-- One `UI.add_to_summary` entry (its `datetime.now()` timestamp is
environment noise and is not modelled). -/
structure SummaryEntry where
  action : String
  target : String
  status : String
  details : String
deriving Repr, DecidableEq

/-- Externally visible collaborator effects of plan execution: a completed
file write, a completed file deletion, and a shell command handed to the
command runner. -/
inductive Effect where
  | fsWrite (path content : String)
  | fsDelete (path : String)
  | shell (cmd : String)
deriving Repr, DecidableEq

/-- Collaborator results consumed by `TerminalApp._handle_file_action` for
one step: the content produced by `execute_code_generation` (`none` = falsy),
the model name it reported, the existing file content read for a
modification, the answer to the `Apply changes?` prompt, and the
`write_file` result. -/
structure FileOracle where
  gen_content : Option String
  gen_model : String
  old_content : String
  apply_answer : String
  write_result : WriteRes
deriving Repr, DecidableEq

/-- `TerminalApp._handle_file_action(action, path, desc, model_name)`:
returns the summary entries it appends and the write effects it performs.
When generation returns a falsy value the function silently does nothing.
The `Apply changes?` prompt is reached only for a modification with truthy
existing content, outside ghost mode, with silent-errors off and auto mode
off; its answer is compared via `.lower() != 'y'` (no strip). -/
def handle_file_action (m : Mode) (o : FileOracle) (action path : String) :
    List SummaryEntry × List Effect :=
  let is_mod := action == "modify"
  match o.gen_content with
  | none => ([], [])
  | some new_content =>
    let old_content := if is_mod then o.old_content else ""
    let asks := !m.ghost_mode && is_mod && old_content ≠ "" && !m.silent_errors && !m.auto_mode
    if asks && pyLower o.apply_answer ≠ "y" then
      ([⟨"Skipped modification", path, "⏭️", "User declined"⟩], [])
    else
      match o.write_result with
      | .ok =>
        let action_text := if is_mod then "Modified" else "Created"
        let lines := pySplitlinesLen new_content
        ([⟨action_text ++ " file", path, "✅",
            toString lines ++ " lines via " ++ o.gen_model⟩],
          [.fsWrite path new_content])
      | .err msg =>
        ([⟨"Failed to " ++ action, path, "❌", pyTake msg 100⟩], [])

/-- Collaborator results for one iteration of the executor loop: the answer
to the per-step `Allow step?` prompt, the file-action oracle, the
`delete_file` result, the command runner's boolean result, and — when
`raised` is set — an exception thrown by the step handler before it could
complete (modelled as producing no entries or effects of its own). -/
structure StepOracle where
  choice : String
  file : FileOracle
  delete_result : Bool
  cmd_result : Bool
  raised : Option String
deriving Repr, DecidableEq

/-- The step dispatch inside the `try` of
`TerminalApp.execute_plan_with_progress`: summary entries appended, effects
performed, and the increment to `completed_steps`. `create`/`modify` always
count as completed once `_handle_file_action` returns (whatever it did);
`delete` counts whether or not the deletion succeeded; `command` counts only
when the runner reports success (a failed command's summary line can itself
raise an `IndexError` on an all-whitespace command); `analyze` always
counts; an unrecognized action does nothing. `.error` is an exception
escaping to the `except` clause. -/
def step_dispatch (m : Mode) (o : StepOracle) (st : PStep) :
    Except String (List SummaryEntry × List Effect × Nat) :=
  match o.raised with
  | some msg => .error msg
  | none =>
    if st.action = "create" ∨ st.action = "modify" then
      let (es, efs) := handle_file_action m o.file st.action st.path
      .ok (es, efs, 1)
    else if st.action = "delete" then
      if o.delete_result then
        .ok ([⟨"Deleted file", st.path, "✅", ""⟩], [.fsDelete st.path], 1)
      else
        .ok ([⟨"Failed to delete", st.path, "❌", ""⟩], [], 1)
    else if st.action = "command" then
      if o.cmd_result then
        .ok ([], [.shell st.command], 1)
      else
        match firstWord st.command with
        | .error e => .error e
        | .ok w =>
          .ok ([⟨"Failed command", w, "❌", "Command failed"⟩], [.shell st.command], 0)
    else if st.action = "analyze" then
      .ok ([⟨"Analyzed", st.path, "🔍", ""⟩], [], 1)
    else
      .ok ([], [], 0)

/-- Whether the executor asks the per-step `Allow step?` question:
`not auto_mode and not GHOST_MODE and not SILENT_ERRORS`. -/
def asks_per_step (m : Mode) : Bool :=
  !m.auto_mode && !m.ghost_mode && !m.silent_errors

/-- The `for i, step in enumerate(steps, 1)` loop of
`execute_plan_with_progress`, with `orac i` the collaborator results for
step `i` (1-based). Answer `n` appends a stopped entry and breaks; `skip`
appends a skipped entry and continues; an exception from the dispatch is
caught, recorded as `Error in step i` with the truncated message, and the
loop continues. Returns the appended entries, the effects, and
`completed_steps`. -/
def execute_plan_loop (m : Mode) (orac : Nat → StepOracle) :
    List PStep → Nat → List SummaryEntry × List Effect × Nat
  | [], _ => ([], [], 0)
  | st :: rest, i =>
    let o := orac i
    let target := if st.action = "command" then st.command else st.path
    if asks_per_step m && (pyStrip (pyLower o.choice) = "n") then
      ([⟨"Stopped by user", "Step " ++ toString i, "⏸️", "User interrupted"⟩], [], 0)
    else if asks_per_step m && (pyStrip (pyLower o.choice) = "skip") then
      let (es, efs, c) := execute_plan_loop m orac rest (i + 1)
      (⟨"Skipped", target, "⏭️", "User skipped"⟩ :: es, efs, c)
    else
      match step_dispatch m o st with
      | .error e =>
        let (es, efs, c) := execute_plan_loop m orac rest (i + 1)
        (⟨"Error in step", "Step " ++ toString i, "❌", pyTake e 100⟩ :: es, efs, c)
      | .ok (es0, efs0, inc) =>
        let (es, efs, c) := execute_plan_loop m orac rest (i + 1)
        (es0 ++ es, efs0 ++ efs, inc + c)

/-- The four qualitative completion bands printed after the loop. The source
computes `success_rate = completed_steps / total * 100` in floating point
(`0` when `total == 0`) and compares it against 90, 70 and 50; here the same
comparisons are written exactly, cross-multiplied over `Nat`
(`completed / total * 100 ≥ θ  ↔  100 * completed ≥ θ * total` for positive
`total`). -/
def completionBand (completed total : Nat) : String :=
  if total = 0 then "Poor"
  else if 100 * completed ≥ 90 * total then "Excellent"
  else if 100 * completed ≥ 70 * total then "Good"
  else if 100 * completed ≥ 50 * total then "Partial"
  else "Poor"

/-- `TerminalApp.execute_plan_with_progress(steps)`: the loop followed by the
completion-band computation, which feeds only the printed report. -/
def execute_plan_with_progress (m : Mode) (orac : Nat → StepOracle) (steps : List PStep) :
    List SummaryEntry × List Effect × Nat × String :=
  let (es, efs, completed) := execute_plan_loop m orac steps 1
  (es, efs, completed, completionBand completed steps.length)

/-! ### Workflow confirmation gate (`TerminalApp.run_agent_workflow`) -/

/-- Result of the pre-execution confirmation logic: abort, or proceed with a
possibly updated mode (the `auto` answer toggles auto mode). -/
inductive GateResult where
  | cancelled
  | proceed (m : Mode)
deriving Repr, DecidableEq

/-- The confirmation logic of `TerminalApp.run_agent_workflow` between plan
rendering and execution. `confidence` is `plan_data.get('confidence', 0)`;
`ansLow` answers the low-confidence `Continue?` prompt and `ansPlan` the
whole-plan `Execute N steps?` prompt, both read via `.lower().strip()`.
Note the low-confidence prompt only exists when silent-errors mode is off,
and a low-confidence plan bypasses the whole-plan prompt entirely. -/
def run_agent_gate (m : Mode) (confidence : Int) (ansLow ansPlan : String) : GateResult :=
  if confidence < 40 then
    if !m.silent_errors then
      if pyStrip (pyLower ansLow) ≠ "y" then .cancelled else .proceed m
    else .proceed m
  else if !m.auto_mode && !m.ghost_mode then
    let confirm := pyStrip (pyLower ansPlan)
    if confirm = "auto" then .proceed { m with auto_mode := !m.auto_mode }
    else if confirm ≠ "y" then .cancelled
    else .proceed m
  else .proceed m

/-- Outcome of `run_agent_workflow` after a plan was obtained: cancelled
before any step ran (the summary, cleared at workflow start, stays empty and
no collaborator effect happens), or executed with the executor's results. -/
inductive WorkflowOutcome where
  | cancelled
  | executed (summary : List SummaryEntry) (effects : List Effect)
      (completed : Nat) (band : String)
deriving Repr, DecidableEq

/-- `TerminalApp.run_agent_workflow` from the obtained plan onward: the
confirmation gate followed, on success, by `execute_plan_with_progress` under
the possibly toggled mode. -/
def run_agent_workflow_model (m : Mode) (confidence : Int) (ansLow ansPlan : String)
    (orac : Nat → StepOracle) (steps : List PStep) : WorkflowOutcome :=
  match run_agent_gate m confidence ansLow ansPlan with
  | .cancelled => .cancelled
  | .proceed m2 =>
    let (es, efs, completed, band) := execute_plan_with_progress m2 orac steps
    .executed es efs completed band

/-! ### Self-healing command runner (`TerminalApp.run_command_with_ai_install`) -/

/-- The fixed `command/module not found` substring list of
`run_command_with_ai_install`. -/
def package_error_patterns : List String :=
  ["command not found", "not found", "module not found", "could not find",
   "npm: not found", "node: not found", "pip: not found", "python: not found"]

/-- `any(pattern in error_output.lower() for pattern in ...)`. -/
def is_package_error (stderr : String) : Bool :=
  package_error_patterns.any (fun p => containsSubstr (pyLower stderr) p)

/-- The environment of one `run_command_with_ai_install` call: the exit code
and stderr of running the current command at a given attempt, the
AI-generated install command for the original command (`none` when the AI
offers nothing usable), the exit code of running that install command, the
user's answer to the install confirmation, and `get_fix_for_error`'s
replacement command. -/
structure CmdEnv where
  runMain : Nat → String → Int × String
  genInstall : String → String → Option String
  runInstall : Nat → String → Int
  installAnswer : Nat → String
  genFix : String → String → Option String

/-- What one `run_command_with_ai_install` call did: its boolean result and
how many times the (possibly AI-substituted) command itself was executed
(install-command executions are separate and not counted here). -/
structure RunResult where
  success : Bool
  mainExecs : Nat
deriving Repr, DecidableEq

/-- The `for attempt in range(max_retries + 1)` loop of
`run_command_with_ai_install`, structurally recursive on the remaining
iterations (`fuel`), so the embedding is total by construction, mirroring the
bounded source loop. Exit code 0 returns `True` at once. On a non-final
attempt, a dependency-missing stderr leads to one AI install command
(generated from the *original* command): executed directly in ghost mode or
after a `y` answer, its success re-runs the current command and anything else
breaks with `False`; a generic failure substitutes `get_fix_for_error`'s
replacement as the new current command when one is given and otherwise
breaks. The final attempt records the failure and breaks. -/
def runCmdLoop (env : CmdEnv) (m : Mode) (original_cmd : String) (max_retries : Nat) :
    Nat → Nat → String → RunResult
  | _, 0, _ => ⟨false, 0⟩
  | attempt, fuel + 1, current_cmd =>
    let rc := (env.runMain attempt current_cmd).1
    let stderr := (env.runMain attempt current_cmd).2
    if rc = 0 then ⟨true, 1⟩
    else if attempt < max_retries then
      if is_package_error stderr then
        match env.genInstall original_cmd stderr with
        | some install_cmd =>
          let proceeds := m.ghost_mode || pyLower (env.installAnswer attempt) == "y"
          if proceeds then
            if env.runInstall attempt install_cmd = 0 then
              let r := runCmdLoop env m original_cmd max_retries (attempt + 1) fuel current_cmd
              ⟨r.success, r.mainExecs + 1⟩
            else ⟨false, 1⟩
          else ⟨false, 1⟩
        | none => ⟨false, 1⟩
      else
        match env.genFix current_cmd stderr with
        | some fix_cmd =>
          let r := runCmdLoop env m original_cmd max_retries (attempt + 1) fuel fix_cmd
          ⟨r.success, r.mainExecs + 1⟩
        | none => ⟨false, 1⟩
    else ⟨false, 1⟩

/-- `TerminalApp.run_command_with_ai_install(cmd, max_retries=3)`. -/
def run_command_with_ai_install (env : CmdEnv) (m : Mode) (cmd : String)
    (max_retries : Nat := 3) : RunResult :=
  runCmdLoop env m cmd max_retries 0 (max_retries + 1) cmd

/-! ### Multi-backend dispatcher (`MultiAIEngine`) -/

/-- The dispatcher state: the configured engine names (dict keys), the active
engine name, the fallback toggle, and the DeepSeek balance flags read by the
fallback-order computation. The derived `fallback_order` attribute is
recomputed before use and only displayed elsewhere, so it is not carried. -/
structure MultiState where
  engines : List String
  active_engine_name : String
  fallback_enabled : Bool
  deepseek_balance_checked : Bool
  deepseek_balance_available : Bool
deriving Repr, DecidableEq

/-- The four outcomes of `DeepSeekEngine.check_balance`: a successful probe,
a 402/insufficient-balance error, a 401/bad-key error, and any other error. -/
inductive BalanceOutcome where
  | ok
  | insufficient
  | badKey
  | otherErr
deriving Repr, DecidableEq

/-- `DeepSeekEngine.check_balance` as it acts on the dispatcher-visible
flags: the probe result and the flag mutations of each branch (`badKey` and
`otherErr` leave `balance_checked` untouched). -/
def check_balance (b : BalanceOutcome) (s : MultiState) : Bool × MultiState :=
  match b with
  | .ok => (true, { s with deepseek_balance_available := true, deepseek_balance_checked := true })
  | .insufficient =>
      (false, { s with deepseek_balance_available := false, deepseek_balance_checked := true })
  | .badKey => (false, { s with deepseek_balance_available := false })
  | .otherErr => (true, { s with deepseek_balance_available := true })

/-- `MultiAIEngine._determine_fallback_order`: `groq`, then `gemini`, then
`deepseek` subject to its balance (probing it, with side effects, when not
yet checked). -/
def determine_fallback_order (b : BalanceOutcome) (s : MultiState) :
    List String × MultiState :=
  let base := (if "groq" ∈ s.engines then ["groq"] else []) ++
    (if "gemini" ∈ s.engines then ["gemini"] else [])
  if "deepseek" ∈ s.engines then
    if !s.deepseek_balance_checked then
      let (r, s1) := check_balance b s
      (if r then base ++ ["deepseek"] else base, s1)
    else if s.deepseek_balance_available then (base ++ ["deepseek"], s)
    else (base, s)
  else (base, s)

/-- `MultiAIEngine.switch_engine` (ignoring its returned message): sets the
active engine when the name is configured, otherwise does nothing. -/
def switch_engine (s : MultiState) (name : String) : MultiState :=
  if name ∈ s.engines then { s with active_engine_name := name } else s

/-- Whether an attempt against `name` is allowed: the source skips only a
DeepSeek engine whose balance is flagged unavailable. -/
def engine_attempt_allowed (s : MultiState) (name : String) : Bool :=
  !(name == "deepseek" && !s.deepseek_balance_available)

/-- The fallback `for engine_name in self.fallback_order` loop of
`MultiAIEngine.generate_content`, with `gen name` the (truthy) text produced
by that engine's own `generate_content` or `none`: skips the active engine
and an unavailable DeepSeek, promotes the first success via `switch_engine`
and returns its result. -/
def fallback_scan (gen : String → Option String) (s : MultiState) :
    List String → (Option String × Option String) × MultiState
  | [] => ((none, none), s)
  | name :: rest =>
    if name ≠ s.active_engine_name then
      if name = "deepseek" ∧ s.deepseek_balance_available = false then
        fallback_scan gen s rest
      else
        match gen name with
        | some r => ((some r, some name), switch_engine s name)
        | none => fallback_scan gen s rest
    else fallback_scan gen s rest

/-- `MultiAIEngine.generate_content(prompt, retries, force_engine)`: the
forced engine (when configured and allowed), then the active engine (when
configured and allowed), then — when fallback is enabled — the recomputed
fallback order, and finally `(None, None)`. -/
def multi_generate_content (gen : String → Option String) (b : BalanceOutcome)
    (force : Option String) (s : MultiState) :
    (Option String × Option String) × MultiState :=
  let step1 : Option (String × String) :=
    match force with
    | some f =>
      if f ∈ s.engines ∧ engine_attempt_allowed s f = true then
        (gen f).map (fun r => (r, f))
      else none
    | none => none
  match step1 with
  | some (r, n) => ((some r, some n), s)
  | none =>
    let active := s.active_engine_name
    let step2 : Option (String × String) :=
      if active ∈ s.engines ∧ engine_attempt_allowed s active = true then
        (gen active).map (fun r => (r, active))
      else none
    match step2 with
    | some (r, n) => ((some r, some n), s)
    | none =>
      if s.fallback_enabled then
        let (order, s1) := determine_fallback_order b s
        fallback_scan gen s1 order
      else ((none, none), s)

/-- The first engine of `order` the fallback loop would attempt and succeed
with, paired with its result. -/
def first_fallback_success (gen : String → Option String) (s : MultiState) :
    List String → Option (String × String)
  | [] => none
  | name :: rest =>
    if name ≠ s.active_engine_name ∧
        ¬(name = "deepseek" ∧ s.deepseek_balance_available = false) then
      match gen name with
      | some r => some (name, r)
      | none => first_fallback_success gen s rest
    else first_fallback_success gen s rest

/-! ### Derived observers used by the statements -/

/-- The `requests` counter of one key in the stats store (0 when absent). -/
def requestsOf (cfg : List (String × ModelStats)) (name : String) : Nat :=
  match alist_get cfg name with
  | some s => s.requests
  | none => 0

/-- A parse oracle whose backend answered `{"steps": []}`. -/
def emptyStepsParse : String → Option JsonVal :=
  fun _ => some (.obj [("steps", JsonVal.arr [])])

/-- The `executed` outcome built from the executor's results, the proceed
branch of `run_agent_workflow_model`. -/
def executedOf (m : Mode) (orac : Nat → StepOracle) (steps : List PStep) :
    WorkflowOutcome :=
  let (es, efs, completed, band) := execute_plan_with_progress m orac steps
  .executed es efs completed band

/-! ## Supporting lemmas -/

theorem alist_get_set_same {α : Type} (l : List (String × α)) (k : String) (v : α) :
    alist_get (alist_set l k v) k = some v := by
  induction l with
  | nil => simp [alist_set, alist_get]
  | cons kv t ih =>
    by_cases h : kv.1 == k
    · simp [alist_set, h, alist_get]
    · simp [alist_set, h, alist_get, ih]

theorem bumpStats_inv (s : ModelStats) (success : Bool) (tokens : Nat) (now : String)
    (h : statInv s) : statInv (bumpStats s success tokens now) := by
  cases success <;> simp [bumpStats, statInv] at h ⊢ <;> omega

/-! ## C5 -/

/-- C5: `update_model_stat` preserves `successes + failures == requests` on
the updated key's record, whether the call records a success or a failure;
the call that first creates the record starts from the zeroed record, for
which the invariant holds trivially, so the stored record always satisfies
it again. -/
theorem update_model_stat_preserves_inv (cfg : List (String × ModelStats))
    (name : String) (success : Bool) (tokens : Nat) (now : String)
    (h : statInv ((alist_get cfg name).getD ⟨0, 0, 0, 0, now⟩)) :
    ∀ s', alist_get (update_model_stat cfg name success tokens now) name = some s' →
      statInv s' := by
  intro s' hs'
  rw [update_model_stat, alist_get_set_same] at hs'
  cases hs'
  exact bumpStats_inv _ success tokens now h

/-- Witness for C5: updating an existing record `⟨2, 1, 1, 0, _⟩` with a
success yields a record satisfying the invariant. -/
theorem update_model_stat_preserves_inv_witness :
    statInv (⟨3, 2, 1, 3, "u"⟩ : ModelStats) :=
  update_model_stat_preserves_inv [("m", ⟨2, 1, 1, 0, "t"⟩)] "m" true 3 "u"
    (by simp [alist_get, statInv]) ⟨3, 2, 1, 3, "u"⟩ rfl

/-! ## C10 -/

/-- C10: `write_file` is total towards its caller — the `try` around its body
turns every OS fault into a returned value, so the embedding's return type
has no exception channel at all. It returns `True` exactly when the directory
creation and the write both succeed; any fault is returned as the error
message string; the parent directory is created (before the write) whenever
`os.makedirs` succeeds, and on success the file holds the new content. -/
theorem write_file_spec (fs : FS) (parent path content : String)
    (mkF wrF : Option String) :
    ((write_file fs parent path content mkF wrF).1 = WriteRes.ok ↔
      (mkF = none ∧ wrF = none)) ∧
    (∀ e, mkF = some e → write_file fs parent path content mkF wrF = (.err e, fs)) ∧
    (mkF = none → parent ∈ (write_file fs parent path content mkF wrF).2.dirs) ∧
    (∀ e, mkF = none → wrF = some e →
      (write_file fs parent path content mkF wrF).1 = .err e) ∧
    (mkF = none → wrF = none →
      alist_get (write_file fs parent path content mkF wrF).2.files path = some content) := by
  refine ⟨?_, ?_, ?_, ?_, ?_⟩ <;>
    cases mkF <;> cases wrF <;>
      simp [write_file, alist_get_set_same]
  · by_cases h : parent ∈ fs.dirs <;> simp [h]
  · by_cases h : parent ∈ fs.dirs <;> simp [h]

/-- Witness for C10: a write with no OS fault returns `True` and stores the
content under the path. -/
theorem write_file_spec_witness :
    (write_file ⟨[], []⟩ "/a" "/a/b.txt" "hi" none none).1 = WriteRes.ok ∧
    alist_get (write_file ⟨[], []⟩ "/a" "/a/b.txt" "hi" none none).2.files "/a/b.txt" =
      some "hi" :=
  ⟨(write_file_spec ⟨[], []⟩ "/a" "/a/b.txt" "hi" none none).1.mpr ⟨rfl, rfl⟩,
    (write_file_spec ⟨[], []⟩ "/a" "/a/b.txt" "hi" none none).2.2.2.2 rfl rfl⟩

/-! ## C1 -/

theorem jsonGet_append_single_ne (fields : List (String × JsonVal)) (key k : String)
    (v : JsonVal) (hk : k ≠ key) :
    jsonGet (fields ++ [(key, v)]) k = jsonGet fields k := by
  induction fields with
  | nil =>
    have hkk : (key == k) = false := beq_eq_false_iff_ne.mpr (Ne.symm hk)
    simp [jsonGet, List.find?, hkk]
  | cons kv t ih =>
    by_cases h : kv.1 == k
    · simp [jsonGet, List.find?_cons, h]
    · have hb : (kv.1 == k) = false := by simpa using h
      simp only [jsonGet, List.cons_append, List.find?_cons, hb] at ih ⊢
      exact ih

theorem setDefaultJson_obj (fields : List (String × JsonVal)) (key : String)
    (dflt : JsonVal) :
    ∃ f2, setDefaultJson (.obj fields) key dflt = .ok (.obj f2) ∧
      ∀ k, k ≠ key → jsonGet f2 k = jsonGet fields k := by
  by_cases h : fields.any (fun kv => kv.1 == key)
  · exact ⟨fields, by simp [setDefaultJson, pyContains, h], fun k _ => rfl⟩
  · refine ⟨fields ++ [(key, dflt)], by simp [setDefaultJson, pyContains, h], ?_⟩
    intro k hk
    exact jsonGet_append_single_ne fields key k dflt hk

theorem fillDefaults_obj (fields : List (String × JsonVal)) :
    ∃ f2, fillDefaults (.obj fields) = .ok (.obj f2) ∧
      jsonGet f2 "steps" = jsonGet fields "steps" := by
  obtain ⟨f1, e1, p1⟩ := setDefaultJson_obj fields "analysis"
    (.str "No detailed analysis provided.")
  obtain ⟨f2, e2, p2⟩ := setDefaultJson_obj f1 "dependencies" (.arr [])
  obtain ⟨f3, e3, p3⟩ := setDefaultJson_obj f2 "confidence_reason"
    (.str "Based on AI analysis of task complexity and project context.")
  obtain ⟨f4, e4, p4⟩ := setDefaultJson_obj f3 "risk_reason"
    (.str "Standard risk assessment based on file modification scope.")
  refine ⟨f4, ?_, ?_⟩
  · simp [fillDefaults, e1, e2, e3, e4, Except.bind, bind]
  · rw [p4 "steps" (by decide), p3 "steps" (by decide), p2 "steps" (by decide),
      p1 "steps" (by decide)]

/-- Counterexample to C1: on a backend response that parses to
`{"steps": []}`, `create_plan` does *not* return `None` — it hands back a
plan object whose `steps` member is the empty array (with the optional
fields filled in), so a zero-step plan does reach the caller. The source
only checks `'steps' not in plan_data`, never the length of the array. -/
theorem create_plan_empty_steps_counterexample :
    create_plan emptyStepsParse (some "add a health check") =
      .ok (some (.obj [("steps", JsonVal.arr []),
        ("analysis", JsonVal.str "No detailed analysis provided."),
        ("dependencies", JsonVal.arr []),
        ("confidence_reason",
          JsonVal.str "Based on AI analysis of task complexity and project context."),
        ("risk_reason",
          JsonVal.str "Standard risk assessment based on file modification scope.")])) ∧
    jsonGet [("steps", JsonVal.arr []),
        ("analysis", JsonVal.str "No detailed analysis provided."),
        ("dependencies", JsonVal.arr []),
        ("confidence_reason",
          JsonVal.str "Based on AI analysis of task complexity and project context."),
        ("risk_reason",
          JsonVal.str "Standard risk assessment based on file modification scope.")]
      "steps" = some (JsonVal.arr []) :=
  ⟨rfl, rfl⟩

/-- C1 as amended: `create_plan` returns `None` when the backend response is
falsy, when the cleaned response fails to parse, or when the parsed object
has no `steps` key; but it does not reject an empty `steps` array — when the
key is present the plan object is returned with its `steps` value unchanged
(defaults filled for the optional fields), even when that value is `[]`. -/
theorem create_plan_amended (parse : String → Option JsonVal) (r : String) :
    (create_plan parse none = .ok none) ∧
    (parse (stripFences r) = none → create_plan parse (some r) = .ok none) ∧
    (∀ fields, parse (stripFences r) = some (.obj fields) →
      ((fields.any (fun kv => kv.1 == "steps")) = false →
        create_plan parse (some r) = .ok none) ∧
      ((fields.any (fun kv => kv.1 == "steps")) = true →
        ∃ f2, create_plan parse (some r) = .ok (some (.obj f2)) ∧
          jsonGet f2 "steps" = jsonGet fields "steps")) := by
  refine ⟨rfl, fun hp => by simp [create_plan, hp], fun fields hp => ⟨?_, ?_⟩⟩
  · intro hno
    simp [create_plan, hp, pyContains, hno]
  · intro hyes
    obtain ⟨f2, e2, p2⟩ := fillDefaults_obj fields
    exact ⟨f2, by simp [create_plan, hp, pyContains, hyes, e2], p2⟩

/-- Witness for C1 (amended): a parse oracle with no `steps` key makes
`create_plan` return `None`. -/
theorem create_plan_amended_witness :
    create_plan (fun _ => some (.obj [("analysis", JsonVal.str "x")])) (some "task") =
      .ok none :=
  ((create_plan_amended (fun _ => some (.obj [("analysis", JsonVal.str "x")]))
    "task").2.2 [("analysis", JsonVal.str "x")] rfl).1 rfl

/-! ## C3 -/

/-- Counterexample to C3: on the ≥3-character input `run the tests`, a
malformed backend response `banana` is trimmed, uppercased and returned
verbatim as `BANANA`, which is none of the six valid tokens — the source has
no membership check and no default to `CHAT` for unknown tokens. -/
theorem deep_router_counterexample :
    3 ≤ pyLen (pyStrip "run the tests") ∧
    deep_router (some "banana") "run the tests" = "BANANA" ∧
    "BANANA" ∉ valid_intents := by
  refine ⟨by decide, rfl, by decide⟩

/-- C3 as amended: the classifier trims and uppercases the backend response
and returns it unchanged whenever it is truthy — whatever token it is;
`CHAT` is only the default for a falsy response (or a short input). The
defense against unknown tokens lives downstream: `detect_intent` collapses
every token outside the four agent categories to `CHAT`, so it alone is
restricted to `AGENT`/`CHAT`. -/
theorem deep_router_amended (prompt r : String)
    (hlen : ¬ pyLen (pyStrip prompt) < 3) (hr : r ≠ "") :
    deep_router (some r) prompt = pyUpper (pyStrip r) ∧
    deep_router none prompt = "CHAT" ∧
    (detect_intent (some r) prompt = "AGENT" ∨ detect_intent (some r) prompt = "CHAT") := by
  refine ⟨by simp [deep_router, hlen, hr], by simp [deep_router, hlen], ?_⟩
  by_cases h : deep_router (some r) prompt ∈
      ["MODIFY_PROJECT", "CREATE_PROJECT", "DEBUG", "RUN_ONLY"]
  · exact Or.inl (by simp [detect_intent, h])
  · exact Or.inr (by simp [detect_intent, h])

/-- Witness for C3 (amended): the concrete malformed response passes
through, and `detect_intent` maps it to the chat path. -/
theorem deep_router_amended_witness :
    deep_router (some "banana") "run the tests" = pyUpper (pyStrip "banana") ∧
    deep_router none "run the tests" = "CHAT" ∧
    (detect_intent (some "banana") "run the tests" = "AGENT" ∨
      detect_intent (some "banana") "run the tests" = "CHAT") :=
  deep_router_amended "run the tests" "banana" (by decide) (by decide)

/-! ## C4 -/

theorem baseGenLoop_spec (behavior : Nat → GenOutcome) :
    ∀ remaining attempt,
      (baseGenLoop behavior attempt remaining).statUpdates.length ≤ 1 ∧
      (∀ t, (baseGenLoop behavior attempt remaining).result = some t →
        (baseGenLoop behavior attempt remaining).statUpdates = [true]) ∧
      ((baseGenLoop behavior attempt remaining).statUpdates = [false] →
        (baseGenLoop behavior attempt remaining).result = none) ∧
      (baseGenLoop behavior attempt remaining).attemptsMade ≤ remaining := by
  intro remaining
  induction remaining with
  | zero => intro attempt; refine ⟨by simp [baseGenLoop], ?_, ?_, by simp [baseGenLoop]⟩ <;>
      simp [baseGenLoop]
  | succ n ih =>
    intro attempt
    obtain ⟨ih1, ih2, ih3, ih4⟩ := ih (attempt + 1)
    cases hb : behavior attempt with
    | ok t => refine ⟨?_, ?_, ?_, ?_⟩ <;> simp [baseGenLoop, hb]
    | empty => refine ⟨?_, ?_, ?_, ?_⟩ <;> simp [baseGenLoop, hb]
    | exn msg =>
      refine ⟨?_, ?_, ?_, ?_⟩ <;> simp only [baseGenLoop, hb]
      · exact ih1
      · exact ih2
      · exact ih3
      · omega

theorem requestsOf_update (cfg : List (String × ModelStats)) (name : String)
    (success : Bool) (tokens : Nat) (now : String) :
    requestsOf (update_model_stat cfg name success tokens now) name =
      requestsOf cfg name + 1 := by
  rw [requestsOf, update_model_stat, alist_get_set_same]
  cases h : alist_get cfg name <;> cases success <;> simp [requestsOf, h, bumpStats]

theorem requestsOf_applyUpdates (name : String) :
    ∀ (us : List Bool) (cfg : List (String × ModelStats)),
      requestsOf (applyUpdates cfg name us) name = requestsOf cfg name + us.length := by
  intro us
  induction us with
  | nil => intro cfg; simp [applyUpdates]
  | cons u t ih =>
    intro cfg
    rw [applyUpdates, ih, requestsOf_update]
    simp
    omega

/-- Counterexample to C4: a call of `BaseAIEngine.generate_content` whose
three attempts all raise executes the backend three times but performs a
single (failure) stats update at the end of the loop, so the `requests`
counter rises by 1, not by the number of attempts. (A falsy, non-raising
backend result even returns with no update at all.) -/
theorem base_generate_stats_counterexample :
    (base_generate_content (fun _ => .exn "boom") 3).attemptsMade = 3 ∧
    (base_generate_content (fun _ => .exn "boom") 3).statUpdates.length = 1 ∧
    requestsOf (applyUpdates [] "groq:m"
      (base_generate_content (fun _ => .exn "boom") 3).statUpdates) "groq:m" = 1 ∧
    (base_generate_content (fun _ => .empty) 3).attemptsMade = 1 ∧
    (base_generate_content (fun _ => .empty) 3).statUpdates.length = 0 :=
  ⟨rfl, rfl, rfl, rfl, rfl⟩

/-- C4 as amended: one `generate_content` call performs at most one stats
update on its engine key, not one per attempt — exactly one success update
when some attempt returns truthy text, exactly one failure update when every
attempt raises, and none at all when an attempt returns a falsy result
without raising — so after the call the key's `requests` counter has risen
by the number of updates (0 or 1), not by the number of attempts. -/
theorem base_generate_amended (behavior : Nat → GenOutcome) (retries : Nat)
    (cfg : List (String × ModelStats)) (name : String) :
    ((base_generate_content behavior retries).statUpdates.length ≤ 1) ∧
    (∀ t, (base_generate_content behavior retries).result = some t →
      (base_generate_content behavior retries).statUpdates = [true]) ∧
    ((base_generate_content behavior retries).statUpdates = [false] →
      (base_generate_content behavior retries).result = none) ∧
    ((base_generate_content behavior retries).attemptsMade ≤ retries) ∧
    (requestsOf (applyUpdates cfg name
        (base_generate_content behavior retries).statUpdates) name =
      requestsOf cfg name + (base_generate_content behavior retries).statUpdates.length) := by
  obtain ⟨h1, h2, h3, h4⟩ := baseGenLoop_spec behavior retries 0
  exact ⟨h1, h2, h3, h4, requestsOf_applyUpdates name _ cfg⟩

/-- Witness for C4 (amended): a first-attempt success records exactly one
success update and one attempt. -/
theorem base_generate_amended_witness :
    (base_generate_content (fun _ => .ok "text") 3).statUpdates = [true] ∧
    requestsOf (applyUpdates [] "groq:m"
        (base_generate_content (fun _ => .ok "text") 3).statUpdates) "groq:m" =
      requestsOf [] "groq:m" +
        (base_generate_content (fun _ => .ok "text") 3).statUpdates.length :=
  ⟨(base_generate_amended (fun _ => .ok "text") 3 [] "groq:m").2.1 "text" rfl,
    (base_generate_amended (fun _ => .ok "text") 3 [] "groq:m").2.2.2.2⟩

/-! ## C2 -/

/-- Counterexample to C2: under the source's default mode
(`SILENT_ERRORS = True`, ghost off, auto off), a plan with confidence 35 is
executed although the user would answer `n` to every prompt — the
low-confidence confirmation only exists when silent-errors mode is off
(`if not UI.SILENT_ERRORS`), and the per-step prompt is likewise suppressed.
The single delete step runs and the file is removed, so confirmation is not
required in every execution mode. -/
theorem low_confidence_counterexample :
    run_agent_workflow_model ⟨true, false, false⟩ 35 "n" "n"
      (fun _ => ⟨"n", ⟨none, "", "", "", .ok⟩, true, false, none⟩)
      [⟨"delete", "f.txt", "", "remove the file"⟩] =
    .executed [⟨"Deleted file", "f.txt", "✅", ""⟩] [.fsDelete "f.txt"] 1 "Excellent" :=
  rfl

/-- C2 as amended: a plan with confidence < 40 requires the explicit
`Continue?` confirmation only when silent-errors mode is off; declining then
aborts the whole plan before any step runs — the workflow returns with the
summary still empty (it was cleared at workflow start) and no collaborator
effect, while answering `y` proceeds to execution. When silent-errors mode
is on (the source default), the low-confidence plan proceeds with no
confirmation at all. -/
theorem low_confidence_gate_amended (m : Mode) (conf : Int) (ansLow ansPlan : String)
    (orac : Nat → StepOracle) (steps : List PStep) (hconf : conf < 40) :
    (m.silent_errors = false → pyStrip (pyLower ansLow) ≠ "y" →
      run_agent_workflow_model m conf ansLow ansPlan orac steps = .cancelled) ∧
    (m.silent_errors = false → pyStrip (pyLower ansLow) = "y" →
      run_agent_workflow_model m conf ansLow ansPlan orac steps = executedOf m orac steps) ∧
    (m.silent_errors = true →
      run_agent_workflow_model m conf ansLow ansPlan orac steps = executedOf m orac steps) := by
  refine ⟨fun hs hn => ?_, fun hs hy => ?_, fun hs => ?_⟩
  · simp [run_agent_workflow_model, run_agent_gate, hconf, hs, hn, executedOf]
  · simp [run_agent_workflow_model, run_agent_gate, hconf, hs, hy, executedOf]
  · simp [run_agent_workflow_model, run_agent_gate, hconf, hs, executedOf]

/-- Witness for C2 (amended): with silent-errors off and the answer `n`, a
confidence-35 plan is cancelled with nothing executed. -/
theorem low_confidence_gate_amended_witness :
    run_agent_workflow_model ⟨false, false, false⟩ 35 "n" "y"
      (fun _ => ⟨"y", ⟨none, "", "", "", .ok⟩, true, false, none⟩)
      [⟨"delete", "f.txt", "", "remove the file"⟩] = .cancelled :=
  (low_confidence_gate_amended ⟨false, false, false⟩ 35 "n" "y"
    (fun _ => ⟨"y", ⟨none, "", "", "", .ok⟩, true, false, none⟩)
    [⟨"delete", "f.txt", "", "remove the file"⟩] (by decide)).1 rfl (by decide)

/-! ## C7 -/

/-- C7: when the handler of the step at (1-based) index `i` raises an
uncaught error — and the step was allowed to run at all, i.e. the per-step
prompt is off or its answer is neither `n` nor `skip` — the `except` clause
records an `Error in step i` summary entry carrying the (100-character
truncated) message, and the loop continues with the remaining steps exactly
as it would have from index `i + 1`: the failure aborts nothing. -/
theorem step_error_isolated (m : Mode) (orac : Nat → StepOracle) (st : PStep)
    (rest : List PStep) (i : Nat) (msg : String)
    (hrun : asks_per_step m = false ∨
      (pyStrip (pyLower (orac i).choice) ≠ "n" ∧
        pyStrip (pyLower (orac i).choice) ≠ "skip"))
    (hraise : (orac i).raised = some msg) :
    execute_plan_loop m orac (st :: rest) i =
      (⟨"Error in step", "Step " ++ toString i, "❌", pyTake msg 100⟩ ::
          (execute_plan_loop m orac rest (i + 1)).1,
        (execute_plan_loop m orac rest (i + 1)).2.1,
        (execute_plan_loop m orac rest (i + 1)).2.2) := by
  rcases hrec : execute_plan_loop m orac rest (i + 1) with ⟨es, efs, c⟩
  rcases hrun with h | ⟨hn, hs⟩
  · simp [execute_plan_loop, h, step_dispatch, hraise, hrec]
  · simp [execute_plan_loop, hn, hs, step_dispatch, hraise, hrec]

/-- Witness for C7: in the default (silent) mode, a first step raising
`boom` is recorded as `Error in step 1` and the second (analyze) step still
runs. -/
theorem step_error_isolated_witness :
    execute_plan_loop ⟨true, false, false⟩
      (fun j => if j = 1 then ⟨"y", ⟨none, "", "", "", .ok⟩, true, true, some "boom"⟩
        else ⟨"y", ⟨none, "", "", "", .ok⟩, true, true, none⟩)
      [⟨"analyze", "a.py", "", "look"⟩, ⟨"analyze", "b.py", "", "look"⟩] 1 =
      ([⟨"Error in step", "Step 1", "❌", "boom"⟩, ⟨"Analyzed", "b.py", "🔍", ""⟩],
        [], 1) := by
  rw [step_error_isolated ⟨true, false, false⟩
    (fun j => if j = 1 then ⟨"y", ⟨none, "", "", "", .ok⟩, true, true, some "boom"⟩
      else ⟨"y", ⟨none, "", "", "", .ok⟩, true, true, none⟩)
    ⟨"analyze", "a.py", "", "look"⟩ [⟨"analyze", "b.py", "", "look"⟩] 1 "boom"
    (Or.inl rfl) rfl]
  rfl

/-! ## C8 -/

theorem runCmdLoop_mainExecs_le (env : CmdEnv) (m : Mode) (oc : String) (mr : Nat) :
    ∀ fuel attempt c, (runCmdLoop env m oc mr attempt fuel c).mainExecs ≤ fuel := by
  intro fuel
  induction fuel with
  | zero => intro attempt c; simp [runCmdLoop]
  | succ n ih =>
    intro attempt c
    simp only [runCmdLoop]
    repeat' split
    all_goals try simp
    all_goals exact ih _ _

/-- C8: the self-healing runner is a bounded loop that always returns a
boolean (the embedding is structurally recursive on the remaining
iterations, mirroring `range(max_retries + 1)`): across every combination
of dependency-install and generic-fix branches, the (possibly AI-substituted)
command itself is executed at most `max_retries + 1` times, and a first
attempt exiting with code 0 returns `True` after exactly one execution with
no install or fix sub-calls. -/
theorem runCmdBounded (env : CmdEnv) (m : Mode) (cmd : String) (mr : Nat) :
    (run_command_with_ai_install env m cmd mr).mainExecs ≤ mr + 1 ∧
    ((env.runMain 0 cmd).1 = 0 →
      run_command_with_ai_install env m cmd mr = ⟨true, 1⟩) := by
  constructor
  · exact runCmdLoop_mainExecs_le env m cmd mr (mr + 1) 0 cmd
  · intro h0
    rw [run_command_with_ai_install, runCmdLoop]
    simp [h0]

/-- Witness for C8: a command exiting 0 at once yields `True` after one
execution. -/
theorem runCmdBounded_witness :
    run_command_with_ai_install
      ⟨fun _ _ => (0, ""), fun _ _ => none, fun _ _ => 1, fun _ => "n", fun _ _ => none⟩
      ⟨true, false, false⟩ "ls" 3 = ⟨true, 1⟩ :=
  (runCmdBounded
    ⟨fun _ _ => (0, ""), fun _ _ => none, fun _ _ => 1, fun _ => "n", fun _ _ => none⟩
    ⟨true, false, false⟩ "ls" 3).2 rfl

/-! ## C9 -/

/-- Counterexample to C9: `completed_steps` is not the number of steps whose
outcome was `applied` — a delete step whose deletion fails is recorded `❌`
in the summary yet still increments the counter, so a one-step plan whose
only step failed reports a 100% ratio and the `Excellent` band, where the
claimed count would give 0% and `Poor`. -/
theorem completion_count_counterexample :
    execute_plan_with_progress ⟨true, false, false⟩
      (fun _ => ⟨"y", ⟨none, "", "", "", .ok⟩, false, false, none⟩)
      [⟨"delete", "f.txt", "", "remove"⟩] =
      ([⟨"Failed to delete", "f.txt", "❌", ""⟩], [], 1, "Excellent") :=
  rfl

/-- C9 as amended: after the loop the ratio `completed_steps / total` is
classified into the four bands (≥90% excellent, ≥70% good, ≥50% partial,
else poor) purely for the printed report — the summary, effects and count
returned by execution do not depend on it. But `completed_steps` counts
every `create`/`modify`/`delete`/`analyze` step whose handler returned
without raising, whether or not it was applied (failed writes, failed
deletes and user-declined modifications included); only `command` steps are
counted conditionally, on the runner's boolean result. -/
theorem completion_band_amended (m : Mode) (o : StepOracle) (st : PStep)
    (orac : Nat → StepOracle) (steps : List PStep) :
    (∀ es efs inc, step_dispatch m o st = .ok (es, efs, inc) →
      ((st.action = "create" ∨ st.action = "modify" ∨ st.action = "delete" ∨
          st.action = "analyze") → inc = 1) ∧
      (st.action = "command" → inc = if o.cmd_result then 1 else 0)) ∧
    execute_plan_with_progress m orac steps =
      ((execute_plan_loop m orac steps 1).1, (execute_plan_loop m orac steps 1).2.1,
        (execute_plan_loop m orac steps 1).2.2,
        completionBand (execute_plan_loop m orac steps 1).2.2 steps.length) := by
  constructor
  · intro es efs inc hok
    constructor
    · rintro (ha | ha | ha | ha) <;> cases hr : o.raised <;>
        cases hd : o.delete_result <;>
          simp [step_dispatch, ha, hr, hd] at hok <;>
          omega
    · intro ha
      cases hr : o.raised
      · cases hc : o.cmd_result
        · cases hw : firstWord st.command
          · simp [step_dispatch, ha, hr, hc, hw] at hok
          · simp [step_dispatch, ha, hr, hc, hw] at hok ⊢
            omega
        · simp [step_dispatch, ha, hr, hc] at hok ⊢
          omega
      · simp [step_dispatch, hr] at hok
  · rfl

/-- Witness for C9 (amended): a failed delete's dispatch increment is 1. -/
theorem completion_band_amended_witness :
    step_dispatch ⟨true, false, false⟩ ⟨"y", ⟨none, "", "", "", .ok⟩, false, false, none⟩
        ⟨"delete", "f.txt", "", "remove"⟩ =
      .ok ([⟨"Failed to delete", "f.txt", "❌", ""⟩], [], 1) ∧ (1 : Nat) = 1 :=
  ⟨rfl,
    ((completion_band_amended ⟨true, false, false⟩
        ⟨"y", ⟨none, "", "", "", .ok⟩, false, false, none⟩
        ⟨"delete", "f.txt", "", "remove"⟩
        (fun _ => ⟨"y", ⟨none, "", "", "", .ok⟩, false, false, none⟩) []).1
      [⟨"Failed to delete", "f.txt", "❌", ""⟩] [] 1 rfl).1
      (Or.inr (Or.inr (Or.inl rfl)))⟩

/-! ## C6 -/

theorem fallback_scan_spec (gen : String → Option String) (s : MultiState) :
    ∀ order, fallback_scan gen s order =
      match first_fallback_success gen s order with
      | some (n, r) => ((some r, some n), switch_engine s n)
      | none => ((none, none), s) := by
  intro order
  induction order with
  | nil => rfl
  | cons name rest ih =>
    by_cases ha : name = s.active_engine_name
    · simp [fallback_scan, first_fallback_success, ha, ih]
    · by_cases hd : name = "deepseek" ∧ s.deepseek_balance_available = false
      · simp [fallback_scan, first_fallback_success, ha, hd, ih]
      · cases hg : gen name <;>
          simp [fallback_scan, first_fallback_success, ha, hd, hg, ih]

theorem first_fallback_success_spec (gen : String → Option String) (s : MultiState) :
    ∀ order n r, first_fallback_success gen s order = some (n, r) →
      n ∈ order ∧ gen n = some r ∧ n ≠ s.active_engine_name := by
  intro order
  induction order with
  | nil => intro n r h; simp [first_fallback_success] at h
  | cons name rest ih =>
    intro n r h
    by_cases hc : name ≠ s.active_engine_name ∧
        ¬(name = "deepseek" ∧ s.deepseek_balance_available = false)
    · simp only [first_fallback_success, if_pos hc] at h
      cases hg : gen name
      · rw [hg] at h
        obtain ⟨h1, h2, h3⟩ := ih n r h
        exact ⟨List.mem_cons_of_mem _ h1, h2, h3⟩
      · rw [hg] at h
        cases h
        exact ⟨List.mem_cons_self _ _, hg, hc.1⟩
    · simp only [first_fallback_success, if_neg hc] at h
      obtain ⟨h1, h2, h3⟩ := ih n r h
      exact ⟨List.mem_cons_of_mem _ h1, h2, h3⟩

theorem mem_dfo_base (s : MultiState) (n : String) :
    n ∈ ((if "groq" ∈ s.engines then ["groq"] else []) ++
      (if "gemini" ∈ s.engines then ["gemini"] else [])) → n ∈ s.engines := by
  intro h
  rcases List.mem_append.1 h with h1 | h1 <;> split at h1 <;> simp_all

theorem determine_fallback_order_mem (b : BalanceOutcome) (s : MultiState) (n : String) :
    n ∈ (determine_fallback_order b s).1 → n ∈ s.engines := by
  intro h
  rw [determine_fallback_order] at h
  by_cases hd : "deepseek" ∈ s.engines
  · rw [if_pos hd] at h
    by_cases hc : (!s.deepseek_balance_checked) = true
    · rw [if_pos hc] at h
      cases b <;> simp only [check_balance] at h <;>
        (try split at h) <;>
        first
        | exact mem_dfo_base s n h
        | (rcases List.mem_append.1 h with h1 | h1
           · exact mem_dfo_base s n h1
           · simp_all)
    · rw [if_neg hc] at h
      split at h
      · rcases List.mem_append.1 h with h1 | h1
        · exact mem_dfo_base s n h1
        · simp_all
      · exact mem_dfo_base s n h
  · rw [if_neg hd] at h
    exact mem_dfo_base s n h

theorem determine_fallback_order_state (b : BalanceOutcome) (s : MultiState) :
    (determine_fallback_order b s).2.engines = s.engines ∧
    (determine_fallback_order b s).2.active_engine_name = s.active_engine_name := by
  rw [determine_fallback_order]
  by_cases hd : "deepseek" ∈ s.engines
  · rw [if_pos hd]
    by_cases hc : (!s.deepseek_balance_checked) = true
    · rw [if_pos hc]
      cases b <;> simp [check_balance]
    · rw [if_neg hc]
      split <;> simp
  · rw [if_neg hd]
    simp

/-- C6: with fallback enabled, (a) when the active adapter's attempt
succeeds, its result is returned and the state — in particular the active
adapter — is untouched, so a repeated call with the promoted adapter already
active performs no further promotion side effect; (b) when the active
attempt fails (falsy result), the fallback order is recomputed (with its
balance-probe side effects) and scanned in order, skipping the active and
unavailable adapters: if no remaining adapter succeeds the call returns
`(none, none)` with the active adapter unchanged rather than raising, and
the first succeeding adapter `n` is promoted to active with its result
returned. -/
theorem multi_fallback_spec (gen : String → Option String) (b : BalanceOutcome)
    (s : MultiState) (hfb : s.fallback_enabled = true) :
    (∀ r, s.active_engine_name ∈ s.engines →
      engine_attempt_allowed s s.active_engine_name = true →
      gen s.active_engine_name = some r →
      multi_generate_content gen b none s = ((some r, some s.active_engine_name), s)) ∧
    (gen s.active_engine_name = none →
      (first_fallback_success gen (determine_fallback_order b s).2
          (determine_fallback_order b s).1 = none →
        multi_generate_content gen b none s =
          ((none, none), (determine_fallback_order b s).2) ∧
        (determine_fallback_order b s).2.active_engine_name = s.active_engine_name) ∧
      (∀ n r, first_fallback_success gen (determine_fallback_order b s).2
          (determine_fallback_order b s).1 = some (n, r) →
        multi_generate_content gen b none s =
          ((some r, some n),
            { (determine_fallback_order b s).2 with active_engine_name := n }))) := by
  constructor
  · intro r hmem hallow hr
    simp [multi_generate_content, hmem, hallow, hr]
  · intro hgen
    have hstep : multi_generate_content gen b none s =
        fallback_scan gen (determine_fallback_order b s).2
          (determine_fallback_order b s).1 := by
      by_cases hc : s.active_engine_name ∈ s.engines ∧
          engine_attempt_allowed s s.active_engine_name = true
      · simp [multi_generate_content, hc, hgen, hfb]
      · simp [multi_generate_content, hc, hgen, hfb]
    constructor
    · intro hnone
      rw [hstep, fallback_scan_spec, hnone]
      exact ⟨rfl, (determine_fallback_order_state b s).2⟩
    · intro n r hsome
      rw [hstep, fallback_scan_spec, hsome]
      have hn_mem : n ∈ (determine_fallback_order b s).2.engines := by
        rw [(determine_fallback_order_state b s).1]
        exact determine_fallback_order_mem b s n
          (first_fallback_success_spec gen _ _ n r hsome).1
      simp [switch_engine, hn_mem]

/-- Witness for C6: with `groq` active and failing, the fallback promotes
`gemini` (the first succeeding adapter of the recomputed order) to active
and returns its result. -/
theorem multi_fallback_spec_witness :
    multi_generate_content (fun nm => if nm = "gemini" then some "hi" else none)
      BalanceOutcome.ok none ⟨["groq", "gemini"], "groq", true, false, true⟩ =
      ((some "hi", some "gemini"),
        { (⟨["groq", "gemini"], "groq", true, false, true⟩ : MultiState) with
            active_engine_name := "gemini" }) :=
  ((multi_fallback_spec (fun nm => if nm = "gemini" then some "hi" else none)
    BalanceOutcome.ok ⟨["groq", "gemini"], "groq", true, false, true⟩ rfl).2
    rfl).2 "gemini" "hi" rfl

end Xeda
